import Mathlib

/-!
Shallow embedding of the social-posting backend in `src/index.js`.

The server keeps two JSON-backed collections: users (`users.json`) and
posts (`posts.json`).  Each HTTP handler performs a read-modify-write
cycle on one of the collections; here each handler is embedded as a pure
function from the collection (plus the parsed request fields) to the new
collection and the response.  The external libraries `bcrypt` and
`jsonwebtoken` are modelled abstractly, following the spec's description
of the Credential Manager and the Session Token Service.
-/

namespace SocialApp

/-- JavaScript values that occur as post ids and request fields: JSON
numbers and strings.  Strict equality `===` / `!==` in JavaScript
distinguishes the two types, which decidable equality on this inductive
captures exactly. -/
inductive JSValue where
  | num (n : Int)
  | str (s : String)
deriving DecidableEq, Repr

instance : BEq JSValue := instBEqOfDecidableEq

/-- Modelled from the spec: the bcrypt hash produced by
`bcrypt.hash(plaintext, rounds)` (Credential Manager, spec §4.2).  The
library is external to the repository, so the hash is modelled as an
opaque record of the cost factor, the salt drawn for this call, and the
preimage the hash commits to; distinct salts give distinct hash values
for the same input. -/
structure BcryptHash where
  rounds : Nat
  salt : Nat
  pre : String
deriving DecidableEq, Repr

/-- Modelled from the spec: `bcrypt.hash(plaintext, rounds)` with the
nondeterministic salt made an explicit argument. -/
def bcryptHash (plaintext : String) (rounds : Nat) (salt : Nat) : BcryptHash :=
  ⟨rounds, salt, plaintext⟩

/-- Modelled from the spec: `bcrypt.compare(plaintext, hash)` verifies the
plaintext against the stored hash through the scheme's own primitive; it
succeeds exactly when the plaintext is the one the hash was derived from. -/
def bcryptCompare (plaintext : String) (hash : BcryptHash) : Bool :=
  hash.pre == plaintext

/-- User record as stored in `users.json`: the source pushes
`{ username, password: hashedPassword }`. -/
structure User where
  username : String
  password : BcryptHash
deriving DecidableEq, Repr

/-- Post record as stored in `posts.json`: the source pushes
`{ id: posts.length + 1, username: req.username, content }`. -/
structure Post where
  id : JSValue
  username : String
  content : String
deriving DecidableEq, Repr

/-- The hardcoded JWT signing secret from src/index.js line 9. -/
def SECRET_KEY : String := "your_secret_key"

/-- Modelled from the spec: a signed JWT as produced by
`jwt.sign({username}, key, {expiresIn: '1h'})` (Session Token Service,
spec §4.3).  The signature is modelled by recording the key the token was
signed with; `exp` is the absolute expiry in seconds. -/
structure Token where
  username : String
  exp : Nat
  signedWith : String
deriving DecidableEq, Repr

/-- Modelled from the spec: `jwt.sign({username}, key, {expiresIn})` at
current time `now` (seconds) embeds the absolute expiry
`now + expiresIn`. -/
def jwtSign (username key : String) (now expiresIn : Nat) : Token :=
  ⟨username, now + expiresIn, key⟩

/-- Modelled from the spec: `jwt.verify(token, key)` at current time
`now` checks the signature and that the token is not expired, and yields
the decoded username on success and an error (`none`) otherwise. -/
def jwtVerify (t : Token) (key : String) (now : Nat) : Option String :=
  if t.signedWith == key && decide (now < t.exp) then some t.username else none

/-- Response of `handleSignUp`: the users collection as persisted after
the call, the HTTP status, and the response message. -/
structure SignUpResult where
  users : List User
  status : Nat
  message : String
deriving DecidableEq, Repr

/-- Embedding of `handleSignUp` (src/index.js lines 49-64).  The
nondeterministic bcrypt salt is passed explicitly. -/
def handleSignUp (users : List User) (username password : String)
    (salt : Nat) : SignUpResult :=
  if (users.find? (fun user => user.username == username)).isSome then
    ⟨users, 400, "User already exists"⟩
  else
    let hashedPassword := bcryptHash password 10 salt
    ⟨users ++ [⟨username, hashedPassword⟩], 201, "User registered successfully"⟩

/-- Response of `handleLogin`: either a 401 with message
"Invalid credentials", or a 200 carrying the issued token. -/
inductive LoginResult where
  | invalidCredentials
  | token (t : Token)
deriving DecidableEq, Repr

/-- HTTP status and message for each `handleLogin` outcome. -/
def LoginResult.status : LoginResult → Nat
  | .invalidCredentials => 401
  | .token _ => 200

/-- Embedding of `handleLogin` (src/index.js lines 73-85), with the
current time `now` passed explicitly for token issuance. -/
def handleLogin (users : List User) (username password : String)
    (now : Nat) : LoginResult :=
  match users.find? (fun user => user.username == username) with
  | none => .invalidCredentials
  | some user =>
    if bcryptCompare password user.password then
      .token (jwtSign username SECRET_KEY now 3600)
    else
      .invalidCredentials

/-- Outcome of the `verifyUser` middleware: no token presented (401),
token presented but verification failed (403), or authenticated with the
decoded username (proceed to the handler). -/
inductive AuthResult where
  | missing
  | invalid
  | ok (username : String)
deriving DecidableEq, Repr

/-- HTTP status the middleware responds with on failure; `none` when it
proceeds to the next handler. -/
def AuthResult.httpStatus : AuthResult → Option Nat
  | .missing => some 401
  | .invalid => some 403
  | .ok _ => none

/-- Embedding of the `verifyUser` middleware (src/index.js lines 95-109):
the optional token extracted from the Authorization header, checked at
current time `now`. -/
def verifyUser (token : Option Token) (now : Nat) : AuthResult :=
  match token with
  | none => .missing
  | some t =>
    match jwtVerify t SECRET_KEY now with
    | none => .invalid
    | some username => .ok username

/-- Response of `handleCreatePost`: the newly created post, the posts
collection as persisted, and the HTTP status. -/
structure CreatePostResult where
  post : Post
  posts : List Post
  status : Nat
deriving DecidableEq, Repr

/-- Embedding of `handleCreatePost` (src/index.js lines 142-151);
`username` is the identity the middleware attached to the request. -/
def handleCreatePost (posts : List Post) (username content : String) :
    CreatePostResult :=
  let newPost : Post := ⟨.num (posts.length + 1), username, content⟩
  ⟨newPost, posts ++ [newPost], 201⟩

/-- Embedding of `fetchUserPosts` (src/index.js lines 190-193): the posts
whose `username` field equals the authenticated username. -/
def fetchUserPosts (posts : List Post) (username : String) : List Post :=
  posts.filter (fun post => post.username == username)

/-- Response of `handleRemovePost`: the posts collection as persisted,
the HTTP status (200, `res.send` default), and the response body. -/
structure RemovePostResult where
  posts : List Post
  status : Nat
  response : String
deriving DecidableEq, Repr

/-- Embedding of `handleRemovePost` (src/index.js lines 209-215): keeps
exactly the posts whose id is not strictly equal (`!==`) to the supplied
`postId`. -/
def handleRemovePost (posts : List Post) (postId : JSValue) :
    RemovePostResult :=
  ⟨posts.filter (fun post => post.id != postId), 200, "Post removed"⟩

/-- C5: `handleCreatePost` assigns the new post id as the current count of
the collection plus one, appends the new record, persists, and returns it
with status 201; on an empty collection the id is 1, and a second create
yields id 2. -/
theorem createPost_assigns_next_id (posts : List Post) (owner content : String) :
    (handleCreatePost posts owner content).post =
      ⟨.num (posts.length + 1), owner, content⟩ ∧
    (handleCreatePost posts owner content).posts =
      posts ++ [⟨.num (posts.length + 1), owner, content⟩] ∧
    (handleCreatePost posts owner content).status = 201 ∧
    (handleCreatePost [] "bob" "hi").post.id = .num 1 ∧
    (handleCreatePost (handleCreatePost [] "bob" "hi").posts "bob" "hi2").post.id
      = .num 2 := by
  refine ⟨rfl, rfl, rfl, rfl, rfl⟩

/-- C6: `handleRemovePost` keeps exactly the records whose id differs from
the supplied one, preserving the order and content of the survivors; when
no record matches, the collection is unchanged, and in every case the
handler responds 200 "Post removed" with no NotFound signalled. -/
theorem removePost_filters_matching_id (posts : List Post) (pid : JSValue) :
    (∀ q, q ∈ (handleRemovePost posts pid).posts ↔ q ∈ posts ∧ q.id ≠ pid) ∧
    (handleRemovePost posts pid).posts.Sublist posts ∧
    ((∀ q ∈ posts, q.id ≠ pid) → (handleRemovePost posts pid).posts = posts) ∧
    (handleRemovePost posts pid).status = 200 ∧
    (handleRemovePost posts pid).response = "Post removed" := by
  refine ⟨?_, ?_, ?_, rfl, rfl⟩
  · intro q
    simp [handleRemovePost, List.mem_filter, bne_iff_ne]
  · exact List.filter_sublist posts
  · intro hnone
    simp only [handleRemovePost]
    exact List.filter_eq_self.mpr (fun q hq => by
      simpa [bne_iff_ne] using hnone q hq)

/-- C6 witness: removing id 3 from a two-post collection with ids 1 and 2
leaves the collection unchanged and still responds "Post removed". -/
theorem removePost_filters_matching_id_witness :
    (handleRemovePost [⟨.num 1, "bob", "a"⟩, ⟨.num 2, "carol", "b"⟩]
      (.num 3)).posts = [⟨.num 1, "bob", "a"⟩, ⟨.num 2, "carol", "b"⟩] ∧
    (handleRemovePost [⟨.num 1, "bob", "a"⟩, ⟨.num 2, "carol", "b"⟩]
      (.num 3)).response = "Post removed" := by
  have h := removePost_filters_matching_id
    [⟨.num 1, "bob", "a"⟩, ⟨.num 2, "carol", "b"⟩] (.num 3)
  exact ⟨h.2.2.1 (by decide), h.2.2.2.2⟩

/-- C7: `fetchUserPosts` returns exactly the records whose owner field
equals the given owner, and returns them as a sublist of the collection,
hence in the original insertion order. -/
theorem fetchUserPosts_exact_owner (posts : List Post) (owner : String) :
    (∀ q, q ∈ fetchUserPosts posts owner ↔ q ∈ posts ∧ q.username = owner) ∧
    (fetchUserPosts posts owner).Sublist posts := by
  constructor
  · intro q
    simp [fetchUserPosts, List.mem_filter]
  · exact List.filter_sublist posts

/-- C7 witness: on a concrete two-post collection, membership in the
owner-filtered result is characterised by exact owner match, and the
result is a sublist of the collection. -/
theorem fetchUserPosts_exact_owner_witness :
    (Post.mk (.num 1) "bob" "a" ∈
        fetchUserPosts [Post.mk (.num 1) "bob" "a", Post.mk (.num 2) "carol" "b"] "bob" ↔
      Post.mk (.num 1) "bob" "a" ∈
        [Post.mk (.num 1) "bob" "a", Post.mk (.num 2) "carol" "b"] ∧
      (Post.mk (.num 1) "bob" "a").username = "bob") ∧
    (fetchUserPosts [Post.mk (.num 1) "bob" "a", Post.mk (.num 2) "carol" "b"]
      "bob").Sublist [Post.mk (.num 1) "bob" "a", Post.mk (.num 2) "carol" "b"] :=
  ⟨(fetchUserPosts_exact_owner
      [Post.mk (.num 1) "bob" "a", Post.mk (.num 2) "carol" "b"] "bob").1 _,
    (fetchUserPosts_exact_owner
      [Post.mk (.num 1) "bob" "a", Post.mk (.num 2) "carol" "b"] "bob").2⟩

/-- C10: post removal uses strict (type-and-value) equality: a record is
removed iff its id is strictly equal to the supplied postId; in
particular a string postId never matches a numeric id, so on a collection
of numeric-id posts a string postId rewrites the collection unchanged and
still reports success, and the string "1" is not strictly equal to the
number 1. -/
theorem removePost_strict_equality (posts : List Post) (pid : JSValue)
    (s : String) (hnum : ∀ q ∈ posts, ∃ m : Int, q.id = .num m) :
    (∀ q, q ∈ (handleRemovePost posts pid).posts ↔ q ∈ posts ∧ q.id ≠ pid) ∧
    (handleRemovePost posts (.str s)).posts = posts ∧
    (handleRemovePost posts (.str s)).status = 200 ∧
    (handleRemovePost posts (.str s)).response = "Post removed" ∧
    JSValue.str "1" ≠ JSValue.num 1 := by
  refine ⟨?_, ?_, rfl, rfl, by decide⟩
  · intro q
    simp [handleRemovePost, List.mem_filter, bne_iff_ne]
  · simp only [handleRemovePost]
    exact List.filter_eq_self.mpr (fun q hq => by
      obtain ⟨m, hm⟩ := hnum q hq
      simp [hm])

/-- C10 witness: removing via the string postId "1" leaves a collection
whose single post has the numeric id 1 unchanged. -/
theorem removePost_strict_equality_witness :
    (handleRemovePost [⟨.num 1, "bob", "hi"⟩] (.str "1")).posts
      = [⟨.num 1, "bob", "hi"⟩] ∧
    JSValue.str "1" ≠ JSValue.num 1 := by
  have h := removePost_strict_equality [⟨.num 1, "bob", "hi"⟩] (.num 2) "1"
    (by intro q hq; exact ⟨1, by simpa using congrArg Post.id (List.mem_singleton.mp hq)⟩)
  exact ⟨h.2.1, h.2.2.2.2⟩

/-- C2: when some stored record has exactly the requested username,
`handleSignUp` fails with 400 "User already exists" and leaves the
persisted collection unchanged; otherwise it hashes the password with
cost factor 10, appends the new record, persists, and responds 201. -/
theorem signUp_duplicate_or_created (users : List User)
    (username password : String) (salt : Nat) :
    ((∃ r ∈ users, r.username = username) →
      handleSignUp users username password salt =
        ⟨users, 400, "User already exists"⟩) ∧
    ((∀ r ∈ users, r.username ≠ username) →
      handleSignUp users username password salt =
        ⟨users ++ [⟨username, bcryptHash password 10 salt⟩], 201,
          "User registered successfully"⟩) := by
  constructor
  · intro hex
    have hsome : (users.find? (fun user => user.username == username)).isSome := by
      rw [List.find?_isSome]
      obtain ⟨r, hr, he⟩ := hex
      exact ⟨r, hr, by simp [he]⟩
    simp [handleSignUp, hsome]
  · intro hnone
    have hn : users.find? (fun user => user.username == username) = none := by
      rw [List.find?_eq_none]
      intro r hr
      simp [hnone r hr]
    simp [handleSignUp, hn]

/-- C2 witness: registering "alice" into a collection already holding
"alice" fails with 400 and the unchanged collection; registering into the
empty collection appends and responds 201. -/
theorem signUp_duplicate_or_created_witness :
    handleSignUp [⟨"alice", bcryptHash "pw" 10 0⟩] "alice" "x" 1 =
      ⟨[⟨"alice", bcryptHash "pw" 10 0⟩], 400, "User already exists"⟩ ∧
    handleSignUp [] "alice" "pw" 0 =
      ⟨[⟨"alice", bcryptHash "pw" 10 0⟩], 201, "User registered successfully"⟩ := by
  constructor
  · exact (signUp_duplicate_or_created [⟨"alice", bcryptHash "pw" 10 0⟩]
      "alice" "x" 1).1 ⟨⟨"alice", bcryptHash "pw" 10 0⟩, by simp, rfl⟩
  · exact (signUp_duplicate_or_created [] "alice" "pw" 0).2 (by simp)

/-- C8: `handleLogin` answers with the single result
`invalidCredentials` (401) both when no record has the requested username
and when the found record's stored hash does not verify against the
supplied password, so the two cases are observably identical. -/
theorem login_uniform_invalid_credentials (users : List User)
    (username password : String) (now : Nat) :
    (users.find? (fun user => user.username == username) = none →
      handleLogin users username password now = .invalidCredentials) ∧
    (∀ user, users.find? (fun u => u.username == username) = some user →
      bcryptCompare password user.password = false →
      handleLogin users username password now = .invalidCredentials) ∧
    LoginResult.status .invalidCredentials = 401 := by
  refine ⟨?_, ?_, rfl⟩
  · intro hn
    simp [handleLogin, hn]
  · intro user hu hv
    simp [handleLogin, hu, hv]

/-- C8 witness: logging in as an absent user and logging in as a present
user with a non-matching password both yield `invalidCredentials`. -/
theorem login_uniform_invalid_credentials_witness :
    handleLogin [] "alice" "pw" 0 = .invalidCredentials ∧
    handleLogin [⟨"alice", bcryptHash "pw" 10 0⟩] "alice" "wrong" 0 =
      .invalidCredentials := by
  constructor
  · exact (login_uniform_invalid_credentials [] "alice" "pw" 0).1 rfl
  · exact (login_uniform_invalid_credentials [⟨"alice", bcryptHash "pw" 10 0⟩]
      "alice" "wrong" 0).2.1 ⟨"alice", bcryptHash "pw" 10 0⟩ rfl rfl

/-- C9: two hashing calls that draw distinct salts produce distinct hash
values even for identical plaintext, while the original plaintext still
verifies against each produced hash. -/
theorem bcryptHash_distinct_salts (plaintext : String) (s1 s2 : Nat)
    (h : s1 ≠ s2) :
    bcryptHash plaintext 10 s1 ≠ bcryptHash plaintext 10 s2 ∧
    bcryptCompare plaintext (bcryptHash plaintext 10 s1) = true ∧
    bcryptCompare plaintext (bcryptHash plaintext 10 s2) = true := by
  refine ⟨?_, by simp [bcryptCompare, bcryptHash], by simp [bcryptCompare, bcryptHash]⟩
  intro he
  exact h (congrArg BcryptHash.salt he)

/-- C9 witness: hashing "pw" with salts 0 and 1 gives distinct hashes and
both verify against "pw". -/
theorem bcryptHash_distinct_salts_witness :
    bcryptHash "pw" 10 0 ≠ bcryptHash "pw" 10 1 ∧
    bcryptCompare "pw" (bcryptHash "pw" 10 0) = true ∧
    bcryptCompare "pw" (bcryptHash "pw" 10 1) = true :=
  bcryptHash_distinct_salts "pw" 0 1 (by decide)

/-- C1: on a store not yet containing the username, registering and then
logging in with the same password succeeds with a token whose payload
username is the registered identity, while logging in with any other
password fails with `invalidCredentials`. -/
theorem register_then_authenticate (users : List User) (u p w : String)
    (salt now : Nat) (hu : ∀ r ∈ users, r.username ≠ u) (hw : w ≠ p) :
    handleLogin (handleSignUp users u p salt).users u p now =
      .token (jwtSign u SECRET_KEY now 3600) ∧
    (jwtSign u SECRET_KEY now 3600).username = u ∧
    handleLogin (handleSignUp users u p salt).users u w now =
      .invalidCredentials := by
  have hn : users.find? (fun user => user.username == u) = none := by
    rw [List.find?_eq_none]
    intro r hr
    simp [hu r hr]
  have husers : (handleSignUp users u p salt).users =
      users ++ [User.mk u (bcryptHash p 10 salt)] := by
    simp [handleSignUp, hn]
  refine ⟨?_, rfl, ?_⟩
  · rw [husers]
    simp [handleLogin, List.find?_append, hn, List.find?_cons,
      bcryptCompare, bcryptHash]
  · rw [husers]
    simp [handleLogin, List.find?_append, hn, List.find?_cons,
      bcryptCompare, bcryptHash, Ne.symm hw]

/-- C1 witness: registering "alice" with "pw" on the empty store, then
logging in with "pw" yields a token for "alice", and logging in with
"wrong" fails. -/
theorem register_then_authenticate_witness :
    handleLogin (handleSignUp [] "alice" "pw" 0).users "alice" "pw" 0 =
      .token (jwtSign "alice" SECRET_KEY 0 3600) ∧
    (jwtSign "alice" SECRET_KEY 0 3600).username = "alice" ∧
    handleLogin (handleSignUp [] "alice" "pw" 0).users "alice" "wrong" 0 =
      .invalidCredentials :=
  register_then_authenticate [] "alice" "pw" "wrong" 0 0 (by simp) (by decide)

/-- C3: a token issued for identity u carries payload username u and
absolute expiry issuance-time + 3600 seconds; verifying it immediately
with the same key succeeds and the middleware yields identity u; any
token whose expiry lies strictly in the past fails verification and the
middleware rejects it as `invalid`. -/
theorem token_issue_and_verify (u : String) (now : Nat) (t : Token)
    (hexp : t.exp < now) :
    (jwtSign u SECRET_KEY now 3600).username = u ∧
    (jwtSign u SECRET_KEY now 3600).exp = now + 3600 ∧
    jwtVerify (jwtSign u SECRET_KEY now 3600) SECRET_KEY now = some u ∧
    verifyUser (some (jwtSign u SECRET_KEY now 3600)) now = .ok u ∧
    jwtVerify t SECRET_KEY now = none ∧
    verifyUser (some t) now = .invalid := by
  have hfresh : jwtVerify (jwtSign u SECRET_KEY now 3600) SECRET_KEY now
      = some u := by
    simp [jwtVerify, jwtSign]
  have hstale : jwtVerify t SECRET_KEY now = none := by
    simp [jwtVerify, Nat.not_lt.mpr (Nat.le_of_lt hexp)]
  refine ⟨rfl, rfl, hfresh, ?_, hstale, ?_⟩
  · simp [verifyUser, hfresh]
  · simp [verifyUser, hstale]

/-- C3 witness: a token issued for "alice" at time 10 expires at 3610 and
verifies immediately to "alice"; a token that expired at time 3 is
rejected as invalid at time 10. -/
theorem token_issue_and_verify_witness :
    (jwtSign "alice" SECRET_KEY 10 3600).username = "alice" ∧
    (jwtSign "alice" SECRET_KEY 10 3600).exp = 3610 ∧
    jwtVerify (jwtSign "alice" SECRET_KEY 10 3600) SECRET_KEY 10 = some "alice" ∧
    verifyUser (some (jwtSign "alice" SECRET_KEY 10 3600)) 10 = .ok "alice" ∧
    jwtVerify ⟨"bob", 3, SECRET_KEY⟩ SECRET_KEY 10 = none ∧
    verifyUser (some ⟨"bob", 3, SECRET_KEY⟩) 10 = .invalid :=
  token_issue_and_verify "alice" 10 ⟨"bob", 3, SECRET_KEY⟩ (by decide)

/-- C4: the middleware answers `missing` (HTTP 401) when no token is
presented and `invalid` (HTTP 403) when a presented token fails the
signature or expiry check, and the two outcomes are distinct. -/
theorem auth_missing_distinct_from_invalid (now : Nat) (t : Token)
    (hfail : jwtVerify t SECRET_KEY now = none) :
    verifyUser none now = .missing ∧
    (verifyUser none now).httpStatus = some 401 ∧
    verifyUser (some t) now = .invalid ∧
    (verifyUser (some t) now).httpStatus = some 403 ∧
    AuthResult.missing ≠ AuthResult.invalid := by
  refine ⟨rfl, rfl, ?_, ?_, by decide⟩
  · simp [verifyUser, hfail]
  · simp [verifyUser, hfail, AuthResult.httpStatus]

/-- C4 witness: at time 0, an absent token yields `missing`/401 while a
token signed with a different key yields `invalid`/403. -/
theorem auth_missing_distinct_from_invalid_witness :
    verifyUser none 0 = .missing ∧
    (verifyUser none 0).httpStatus = some 401 ∧
    verifyUser (some ⟨"alice", 100, "other_key"⟩) 0 = .invalid ∧
    (verifyUser (some ⟨"alice", 100, "other_key"⟩) 0).httpStatus = some 403 ∧
    AuthResult.missing ≠ AuthResult.invalid :=
  auth_missing_distinct_from_invalid 0 ⟨"alice", 100, "other_key"⟩ (by decide)

end SocialApp
